import Mathlib

/-!
Verification of the conversational-analytics orchestration core of the
work-o-pilot backend: a shallow embedding in Lean 4 of the deterministic
parts of `app/pipelines/analytics/calculators.py`, `executor.py`,
`app/services/router_ai.py` (`validate_router_output`),
`app/models/context.py` (`resolve_reference`) and
`app/pipelines/dispatcher.py` (`dispatch`), together with theorems settling
the behavioural claims about them.

Modelling conventions:
* Python floats are modelled as exact rationals; values that pass through a
  real square root (volatility) live in `Real`.  Division by zero follows
  the Lean convention `x / 0 = 0`; the source never divides by zero on the
  claimed inputs (each division is guarded), so this only shows up in
  corners the claims do not touch.
* `round(x, 2)` is modelled as rounding `x * 100` to the nearest integer
  (half up); the float tie-breaking of Python (half to even) differs only
  on exact half-cent ties, which no claim depends on.
* pandas data frames carry only the columns the core reads (`Date`,
  `Close`); a frame is an ordered list of rows.
* Python dicts that the core builds are modelled as ordered association
  lists with an `upsert` write (a rewritten key keeps its position, as in
  Python dicts).
* Stateful collaborators (Supabase, yfinance, the LLM clients, chart image
  rendering) are parameters of the functions that call them; all embedded
  functions are total, so "never raises" holds by construction and the
  interesting content is which value is returned.
-/

namespace WorkOPilot

/-! ## Python-style helpers -/

/-- Python `a or b` for an optional string: `None` and `""` are falsy. -/
def pyOrStr (o : Option String) (d : String) : String :=
  match o with
  | none => d
  | some s => if s = "" then d else s

/-- Python `a or b` for an optional int: `None` and `0` are falsy. -/
def pyOrInt (o : Option Int) (d : Int) : Int :=
  match o with
  | none => d
  | some v => if v = 0 then d else v

/-- Python slice `l[:n]` for an `int` bound `n` (negative counts from the end). -/
def pySliceTo (n : Int) (l : List α) : List α :=
  l.take (if 0 ≤ n then n.toNat else ((l.length : Int) + n).toNat)

/-- Insert into an association list as a Python dict write: an existing key
keeps its position and gets the new value, a fresh key is appended. -/
def upsert : List (String × β) → String → β → List (String × β)
  | [], k, v => [(k, v)]
  | (k', v') :: rest, k, v =>
      if k' = k then (k, v) :: rest else (k', v') :: upsert rest k v

/-- Does `pat` occur at the start of `l`? (character lists) -/
def startsWithL : List Char → List Char → Bool
  | [], _ => true
  | _ :: _, [] => false
  | a :: as, b :: bs => a == b && startsWithL as bs

/-- Does `pat` occur anywhere in `l`? (character lists) -/
def hasSubL (pat : List Char) : List Char → Bool
  | [] => startsWithL pat []
  | b :: bs => startsWithL pat (b :: bs) || hasSubL pat bs

/-- Python `needle in haystack` on strings (substring containment). -/
def strContains (haystack needle : String) : Bool :=
  hasSubL needle.data haystack.data

/-- Python `str.upper()` (ASCII; ticker symbols and keywords are ASCII).
`String.toUpper` itself is not used because its `mapAux` recursion does not
reduce in the kernel. -/
def pyUpper (s : String) : String := ⟨s.data.map Char.toUpper⟩

/-- Python `str.lower()` (ASCII). -/
def pyLower (s : String) : String := ⟨s.data.map Char.toLower⟩

/-- Is this one of the ASCII whitespace characters `str.strip()` removes? -/
def isStripWS (c : Char) : Bool :=
  c == ' ' || c == '\t' || c == '\n' || c == '\r' || c == '\x0b' || c == '\x0c'

/-- Python `str.strip()` (ASCII whitespace). -/
def pyStrip (s : String) : String :=
  ⟨((s.data.dropWhile isStripWS).reverse.dropWhile isStripWS).reverse⟩

/-- Python `round(q, 2)`: round to two decimal places. -/
def round2 (q : ℚ) : ℚ := ((round (q * 100) : ℤ) : ℚ) / 100

/-- Python `round(x, 2)` on a real value (used after the volatility square root). -/
noncomputable def round2R (x : ℝ) : ℝ := ((round (x * 100) : ℤ) : ℝ) / 100

/-! ## Data model (`app/models/schemas.py`)

Only the fields the orchestration core reads are carried; the remaining
`Asset` columns (purchase date, broker, currency, ...) are never read by
the core and omitted.  Field defaults mirror the pydantic defaults. -/

/-- One row of a price frame: the `Date` (already rendered as a string) and
`Close` columns that the calculators read. -/
structure Row where
  date : String
  close : ℚ
deriving DecidableEq, Repr

instance : Inhabited Row := ⟨⟨"", 0⟩⟩

/-- A pandas price frame restricted to the columns the core uses. -/
abbrev Frame := List Row

/-- The close-price column of a frame. -/
def closes (df : Frame) : List ℚ := df.map (·.close)

structure TimeRange where
  «type» : String := "relative"
  value : Option Int := some 1
  unit : String := "months"
  start_date : Option String := none
  end_date : Option String := none
deriving DecidableEq, Repr

structure Intent where
  pipeline : String := "analytics"
  task : String := "trend"
deriving DecidableEq, Repr

structure Entities where
  assets : List String := []
  metrics : List String := ["price"]
  time_range : TimeRange := {}
  reference : Option String := none
deriving DecidableEq, Repr

structure Operations where
  analysis_type : String := "trend"
  direction : Option String := none
  rank_n : Option Int := none
  aggregation : Option String := none
deriving DecidableEq, Repr

structure Visualization where
  required : Bool := true
  «type» : String := "line_chart"
deriving DecidableEq, Repr

structure Confidence where
  needs_clarification : Bool := false
  missing_fields : List String := []
  clarification_prompt : Option String := none
deriving DecidableEq, Repr

structure RouterAIOutput where
  intent : Intent := {}
  entities : Entities := {}
  operations : Operations := {}
  visualization : Visualization := {}
  confidence : Confidence := {}
deriving DecidableEq, Repr

/-- A portfolio holding (`Asset` in `schemas.py`); only the fields the core
reads are modelled. -/
structure Asset where
  symbol : String
  quantity : ℚ
  avg_buy_price : ℚ
deriving DecidableEq, Repr

/-- The `last_results` summary dict stored by the context manager; it holds
exactly the keys `task`, `assets`, `success` (`get` of a missing key on the
initially empty dict is `none`). -/
structure LastResults where
  task : Option String := none
  assets : List String := []
  success : Option Bool := none
deriving DecidableEq, Repr

structure ConversationContext where
  active_assets : List String := []
  active_time_range : Option TimeRange := none
  last_operation : Option String := none
  last_results : LastResults := {}
  mentioned_assets_history : List String := []
deriving DecidableEq, Repr

/-! ## Calculators (`app/pipelines/analytics/calculators.py`) -/

structure TrendResult where
  symbol : String
  start_price : ℚ
  end_price : ℚ
  change_absolute : ℚ
  change_percent : ℚ
  trend_direction : String
  data_points : List Row
deriving DecidableEq, Repr

/-- Source `calculate_trend`: start/end close, absolute and percent change, and the
direction label; a frame with fewer than 2 rows yields the zeroed result. -/
def calculate_trend (df : Frame) (symbol : String) : TrendResult :=
  if df.length < 2 then
    { symbol := symbol, start_price := 0, end_price := 0, change_absolute := 0
      change_percent := 0, trend_direction := "flat", data_points := [] }
  else
    let start_price := df.headI.close
    let end_price := df.getLastI.close
    let change_absolute := end_price - start_price
    let change_percent :=
      if start_price ≠ 0 then change_absolute / start_price * 100 else 0
    let trend_direction :=
      if change_percent > 1 then "up"
      else if change_percent < -1 then "down"
      else "flat"
    { symbol := symbol
      start_price := round2 start_price
      end_price := round2 end_price
      change_absolute := round2 change_absolute
      change_percent := round2 change_percent
      trend_direction := trend_direction
      data_points := df }

structure ChangePct where
  change_percent : ℚ
  start : ℚ
  «end» : ℚ
deriving DecidableEq, Repr

/-- Source `calculate_percentage_change`. -/
def calculate_percentage_change (df : Frame) : ChangePct :=
  if df.length < 2 then { change_percent := 0, start := 0, «end» := 0 }
  else
    let start := df.headI.close
    let e := df.getLastI.close
    let change_percent := if start ≠ 0 then (e - start) / start * 100 else 0
    { change_percent := round2 change_percent, start := round2 start, «end» := round2 e }

structure ChangeAbs where
  change_absolute : ℚ
  start : ℚ
  «end» : ℚ
deriving DecidableEq, Repr

/-- Source `calculate_absolute_change`. -/
def calculate_absolute_change (df : Frame) : ChangeAbs :=
  if df.length < 2 then { change_absolute := 0, start := 0, «end» := 0 }
  else
    let start := df.headI.close
    let e := df.getLastI.close
    { change_absolute := round2 (e - start), start := round2 start, «end» := round2 e }

/-- One element of the `performances` list built by `rank_by_performance`. -/
structure PerfEntry where
  symbol : String
  change_percent : ℚ
  start_price : ℚ
  end_price : ℚ
deriving DecidableEq, Repr

/-- A `performances` entry after the `rank` key has been added. -/
structure RankedEntry where
  symbol : String
  change_percent : ℚ
  start_price : ℚ
  end_price : ℚ
  rank : Nat
deriving DecidableEq, Repr

/-- Forget the rank of a ranked entry. -/
def RankedEntry.toPerf (e : RankedEntry) : PerfEntry :=
  ⟨e.symbol, e.change_percent, e.start_price, e.end_price⟩

structure RankResult where
  rankings : List RankedEntry
  direction : String
  metric : String
deriving DecidableEq, Repr

/-- The `performances` list of `rank_by_performance`: frames with fewer than
2 rows are skipped, the rest contribute their percentage change. -/
def perfEntries : List (String × Frame) → List PerfEntry
  | [] => []
  | (symbol, df) :: rest =>
      if df.length < 2 then perfEntries rest
      else
        let change := calculate_percentage_change df
        ⟨symbol, change.change_percent, change.start, change.«end»⟩ :: perfEntries rest

/-- Descending comparison on performance entries (Python stable sort with
`reverse=True`). -/
def perfGe (a b : PerfEntry) : Prop := b.change_percent ≤ a.change_percent

/-- Ascending comparison on performance entries (Python stable sort). -/
def perfLe (a b : PerfEntry) : Prop := a.change_percent ≤ b.change_percent

instance : DecidableRel perfGe := fun a b =>
  decidable_of_iff (b.change_percent ≤ a.change_percent) Iff.rfl

instance : DecidableRel perfLe := fun a b =>
  decidable_of_iff (a.change_percent ≤ b.change_percent) Iff.rfl

instance : IsTotal PerfEntry perfGe := ⟨fun a b => le_total b.change_percent a.change_percent⟩

instance : IsTrans PerfEntry perfGe := ⟨fun _ _ _ h h' => le_trans h' h⟩

instance : IsTotal PerfEntry perfLe := ⟨fun a b => le_total a.change_percent b.change_percent⟩

instance : IsTrans PerfEntry perfLe := ⟨fun _ _ _ h h' => le_trans h h'⟩

/-- Python `for i, item in enumerate(rankings): item["rank"] = i + 1`, starting at
`i0`. -/
def addRanks (i0 : Nat) : List PerfEntry → List RankedEntry
  | [] => []
  | e :: es => ⟨e.symbol, e.change_percent, e.start_price, e.end_price, i0⟩ :: addRanks (i0 + 1) es

/-- Source `rank_by_performance`: build the performance list (skipping short
frames), stable-sort it descending for `"top"` / ascending otherwise, take
the first `n`, and assign 1-based ranks. -/
def rank_by_performance (dfs : List (String × Frame)) (direction : String)
    (n : Int) (metric : String) : RankResult :=
  let performances := perfEntries dfs
  let sorted :=
    if direction = "top" then performances.insertionSort perfGe
    else performances.insertionSort perfLe
  let rankings := addRanks 1 (pySliceTo n sorted)
  { rankings := rankings, direction := direction, metric := metric }

structure PnLResult where
  symbol : String
  quantity : ℚ
  avg_buy_price : ℚ
  current_price : ℚ
  cost_basis : ℚ
  current_value : ℚ
  unrealized_pnl : ℚ
  pnl_percent : ℚ
deriving DecidableEq, Repr

/-- Source `calculate_unrealized_pnl`: per-symbol unrealized profit and loss for the
holdings that have a current price. -/
def calculate_unrealized_pnl (holdings : List Asset)
    (current_prices : List (String × ℚ)) : List (String × PnLResult) :=
  holdings.foldl (fun results asset =>
    match current_prices.lookup asset.symbol with
    | none => results
    | some current_price =>
        let cost_basis := asset.quantity * asset.avg_buy_price
        let current_value := asset.quantity * current_price
        let unrealized_pnl := current_value - cost_basis
        let pnl_percent := if cost_basis ≠ 0 then unrealized_pnl / cost_basis * 100 else 0
        upsert results asset.symbol
          { symbol := asset.symbol
            quantity := asset.quantity
            avg_buy_price := round2 asset.avg_buy_price
            current_price := round2 current_price
            cost_basis := round2 cost_basis
            current_value := round2 current_value
            unrealized_pnl := round2 unrealized_pnl
            pnl_percent := round2 pnl_percent }) []

structure TotalPnL where
  total_cost_basis : ℚ
  total_current_value : ℚ
  total_unrealized_pnl : ℚ
  total_pnl_percent : ℚ
  positions : Nat
deriving DecidableEq, Repr

/-- Source `calculate_total_pnl`. -/
def calculate_total_pnl (pnl_results : List (String × PnLResult)) : TotalPnL :=
  let total_cost_basis := (pnl_results.map (·.2.cost_basis)).sum
  let total_current_value := (pnl_results.map (·.2.current_value)).sum
  let total_pnl := total_current_value - total_cost_basis
  let total_pnl_percent :=
    if total_cost_basis ≠ 0 then total_pnl / total_cost_basis * 100 else 0
  { total_cost_basis := round2 total_cost_basis
    total_current_value := round2 total_current_value
    total_unrealized_pnl := round2 total_pnl
    total_pnl_percent := round2 total_pnl_percent
    positions := pnl_results.length }

/-- pandas `Series.pct_change().dropna()` on a close column: day-over-day relative
changes (the leading NaN of `pct_change` is dropped). -/
def pctChangeList (xs : List ℚ) : List ℚ :=
  (xs.zip xs.tail).map fun p => (p.2 - p.1) / p.1

/-- Arithmetic mean of a list of rationals. -/
def meanQ (xs : List ℚ) : ℚ := xs.sum / xs.length

/-- Sample variance (`ddof = 1`, the pandas `std` default squared). -/
def sampleVarQ (xs : List ℚ) : ℚ :=
  ((xs.map fun x => (x - meanQ xs) ^ 2).sum) / ((xs.length : ℚ) - 1)

/-- Source `calculate_volatility`: sample standard deviation of daily returns,
annualized by `sqrt 252` and converted to a percentage. -/
noncomputable def calculate_volatility (df : Frame) : ℝ :=
  if df.length < 2 then 0
  else
    let returns := pctChangeList (closes df)
    if returns.length = 0 then 0
    else
      let daily_std : ℝ := Real.sqrt (sampleVarQ returns : ℚ)
      round2R (daily_std * Real.sqrt 252 * 100)

/-- Running maximum with seed `m` (continuation of `cummax`). -/
def cummaxAux (m : ℚ) : List ℚ → List ℚ
  | [] => []
  | c :: cs => max m c :: cummaxAux (max m c) cs

/-- pandas `Series.cummax()`. -/
def cummax : List ℚ → List ℚ
  | [] => []
  | c :: cs => c :: cummaxAux c cs

/-- First index of the minimum together with its value (`Series.idxmin` and
`Series.min`; ties resolve to the earliest index). -/
def firstMinAux : List ℚ → Option (Nat × ℚ)
  | [] => none
  | c :: cs =>
      match firstMinAux cs with
      | none => some (0, c)
      | some (j, m) => if c ≤ m then some (0, c) else some (j + 1, m)

/-- First index of the maximum together with its value (`Series.idxmax`). -/
def firstMaxAux : List ℚ → Option (Nat × ℚ)
  | [] => none
  | c :: cs =>
      match firstMaxAux cs with
      | none => some (0, c)
      | some (j, m) => if m ≤ c then some (0, c) else some (j + 1, m)

structure DrawdownResult where
  max_drawdown_percent : ℚ
  peak : ℚ
  trough : ℚ
deriving DecidableEq, Repr

/-- Source `calculate_drawdown`: percent drawdown against the running maximum, its
most negative value, the preceding peak and the trough. -/
def calculate_drawdown (df : Frame) : DrawdownResult :=
  if df.length < 2 then { max_drawdown_percent := 0, peak := 0, trough := 0 }
  else
    let cs := closes df
    let drawdown := List.zipWith (fun c m => (c - m) / m * 100) cs (cummax cs)
    let im := (firstMinAux drawdown).getD (0, 0)
    let pk := (firstMaxAux (cs.take (im.1 + 1))).getD (0, 0)
    { max_drawdown_percent := round2 im.2
      peak := round2 pk.2
      trough := round2 (cs.getD im.1 0) }

structure AllocEntry where
  symbol : String
  value : ℚ
  quantity : ℚ
  percentage : ℚ
deriving DecidableEq, Repr

structure AllocationData where
  allocations : List AllocEntry
  total_value : ℚ
deriving DecidableEq, Repr

/-- Descending comparison on allocation entries. -/
def allocGe (a b : AllocEntry) : Prop := b.percentage ≤ a.percentage

instance : DecidableRel allocGe := fun a b =>
  decidable_of_iff (b.percentage ≤ a.percentage) Iff.rfl

/-- Source `calculate_allocation`: market value and percentage per priced holding,
sorted descending by percentage. -/
def calculate_allocation (holdings : List Asset)
    (current_prices : List (String × ℚ)) : AllocationData :=
  let raw := holdings.filterMap fun asset =>
    match current_prices.lookup asset.symbol with
    | none => none
    | some p => some (asset.symbol, asset.quantity * p, asset.quantity)
  let total_value := (raw.map (·.2.1)).sum
  let allocations := raw.map fun t =>
    { symbol := t.1
      value := round2 t.2.1
      quantity := t.2.2
      percentage := if total_value > 0 then round2 (t.2.1 / total_value * 100) else 0
      : AllocEntry }
  { allocations := allocations.insertionSort allocGe, total_value := round2 total_value }

/-- One row of the `compare_assets` output. -/
structure CompareEntry where
  symbol : String
  start_price : ℚ
  end_price : ℚ
  change_percent : ℚ
  trend_direction : String
  volatility : ℝ
  max_drawdown : ℚ

structure ComparisonData where
  assets : List CompareEntry
  count : Nat

/-- The comparison row for one symbol. -/
noncomputable def compareEntry (symbol : String) (df : Frame) : CompareEntry :=
  let trend := calculate_trend df symbol
  { symbol := symbol
    start_price := trend.start_price
    end_price := trend.end_price
    change_percent := trend.change_percent
    trend_direction := trend.trend_direction
    volatility := calculate_volatility df
    max_drawdown := (calculate_drawdown df).max_drawdown_percent }

/-- Source `compare_assets`: one row per non-empty frame. -/
noncomputable def compare_assets (dfs : List (String × Frame)) : ComparisonData :=
  let comparison := dfs.filterMap fun p =>
    if p.2.length = 0 then none else some (compareEntry p.1 p.2)
  { assets := comparison, count := comparison.length }

/-- One point of a line-chart series. -/
structure SeriesPoint where
  x : String
  y : ℚ
deriving DecidableEq, Repr

/-- The chart payloads built by the executor and `generate_chart_data`. -/
inductive ChartData where
  | line (series : List (String × List SeriesPoint))
  | bar (labels : List String) (values : List ℝ)
  | table (data : List (String × PnLResult))
  | pie (labels : List String) (values : List ℚ)
  | other («type» : String)

/-- Source `generate_chart_data`. -/
def generate_chart_data (dfs : List (String × Frame)) (chart_type : String) : ChartData :=
  if chart_type = "line_chart" then
    .line (dfs.filterMap fun p =>
      if p.2.length = 0 then none
      else some (p.1, p.2.map fun r => ⟨r.date, round2 r.close⟩))
  else if chart_type = "bar_chart" then
    let kept := dfs.filter fun p => ! p.2.isEmpty
    .bar (kept.map (·.1))
      (kept.map fun p => ((calculate_percentage_change p.2).change_percent : ℝ))
  else .other chart_type

/-! ## Market data helpers (`app/pipelines/analytics/market_data.py`) -/

/-- Source `ASSET_SYMBOL_MAP`: user-friendly names to yfinance tickers. -/
def ASSET_SYMBOL_MAP : List (String × String) :=
  [("BTC", "BTC-USD"), ("BITCOIN", "BTC-USD"),
   ("ETH", "ETH-USD"), ("ETHEREUM", "ETH-USD"),
   ("SOL", "SOL-USD"), ("SOLANA", "SOL-USD"),
   ("XRP", "XRP-USD"), ("RIPPLE", "XRP-USD"),
   ("ADA", "ADA-USD"), ("CARDANO", "ADA-USD"),
   ("DOGE", "DOGE-USD"), ("DOGECOIN", "DOGE-USD"),
   ("DOT", "DOT-USD"), ("POLKADOT", "DOT-USD"),
   ("MATIC", "MATIC-USD"), ("POLYGON", "MATIC-USD"),
   ("AVAX", "AVAX-USD"), ("AVALANCHE", "AVAX-USD"),
   ("LINK", "LINK-USD"), ("CHAINLINK", "LINK-USD"),
   ("LTC", "LTC-USD"), ("LITECOIN", "LTC-USD"),
   ("UNI", "UNI-USD"), ("UNISWAP", "UNI-USD"),
   ("SHIB", "SHIB-USD"),
   ("PEPE", "PEPE-USD"),
   ("GOLD", "GC=F"), ("XAU", "GC=F"), ("XAUUSD", "GC=F"),
   ("SILVER", "SI=F"), ("XAG", "SI=F"), ("XAGUSD", "SI=F"),
   ("PLATINUM", "PL=F"), ("XPT", "PL=F"),
   ("PALLADIUM", "PA=F"), ("XPD", "PA=F"),
   ("OIL", "CL=F"), ("CRUDE", "CL=F"), ("CRUDEOIL", "CL=F"), ("WTI", "CL=F"),
   ("BRENT", "BZ=F"),
   ("NATURALGAS", "NG=F"), ("NATGAS", "NG=F"), ("GAS", "NG=F"),
   ("GLD", "GLD"),
   ("SLV", "SLV"),
   ("USO", "USO")]

/-- Source `normalize_symbol`: map user-friendly asset names to yfinance tickers;
unknown tokens pass through uppercased. -/
def normalize_symbol (symbol : String) : String :=
  let upper := pyStrip (pyUpper symbol)
  match ASSET_SYMBOL_MAP.lookup upper with
  | some t => t
  | none => upper

/-! ## Intent validation (`app/services/router_ai.py`) -/

/-- Source `validate_router_output`: post-validation of the classifier output
against the known tickers of the user. -/
def validate_router_output (output : RouterAIOutput) (user_tickers : List String) :
    RouterAIOutput :=
  if output.confidence.needs_clarification then output
  else if output.entities.assets ≠ [] ∧ "__ALL__" ∉ output.entities.assets then
    let uppers := user_tickers.map pyUpper
    let valid_assets :=
      (output.entities.assets.filter fun a => uppers.contains (pyUpper a)).map pyUpper
    let invalid_assets :=
      output.entities.assets.filter fun a => ! uppers.contains (pyUpper a)
    if invalid_assets ≠ [] ∧ valid_assets = [] then
      { output with confidence :=
          { needs_clarification := true
            clarification_prompt := some
              ("I couldn\x27t find " ++ String.intercalate ", " invalid_assets ++
               " in your portfolio. Your stocks are: " ++
               String.intercalate ", " user_tickers)
            missing_fields := ["assets"] } }
    else if valid_assets ≠ [] then
      { output with entities := { output.entities with assets := valid_assets } }
    else output
  else output

/-! ## Reference resolution (`app/models/context.py`) -/

/-- The first keyword family of `resolve_reference`:
`any(r in reference_lower for r in ["that", "it", "this", "the same"])`. -/
def refKeywordHit (rl : String) : Bool :=
  strContains rl "that" || strContains rl "it" || strContains rl "this" ||
    strContains rl "the same"

/-- Python `"worst" in reference_lower or "bottom" in reference_lower`. -/
def worstHit (rl : String) : Bool :=
  strContains rl "worst" || strContains rl "bottom"

/-- Python `"best" in reference_lower or "top" in reference_lower`. -/
def bestHit (rl : String) : Bool :=
  strContains rl "best" || strContains rl "top"

/-- Source `resolve_reference`: resolve phrases like "that stock" or "the worst
one" against the conversation context. -/
def resolve_reference (reference : String) (ctx : ConversationContext) :
    Option (List String) :=
  if reference = "" then none
  else
    let rl := pyLower reference
    if refKeywordHit rl && !ctx.active_assets.isEmpty then some ctx.active_assets
    else if worstHit rl && (ctx.last_results.task == some "rank") then
      if !ctx.active_assets.isEmpty then some (ctx.active_assets.take 1) else none
    else if bestHit rl && (ctx.last_results.task == some "rank") then
      if !ctx.active_assets.isEmpty then some (ctx.active_assets.take 1) else none
    else if !ctx.active_assets.isEmpty then some ctx.active_assets
    else none

/-! ## Analytics executor (`app/pipelines/analytics/executor.py`)

The collaborators (`fetch_multiple_stocks`, `get_current_prices`, the
Supabase-backed `get_user_assets`) are passed in as function arguments; a
returned association list plays the role of the dict of successful
fetches. -/

/-- The per-task payloads of `AnalyticsResult.data`, as a tagged union. -/
inductive AData where
  | empty
  | trends (ts : List (String × TrendResult))
  | changes (cs : List (String × ChangePct × ChangeAbs))
  | rankings (r : RankResult)
  | pnl (positions : List (String × PnLResult)) (total : TotalPnL)
  | comparison (c : ComparisonData)
  | volatilities (vs : List (String × ℝ))
  | drawdowns (ds : List (String × DrawdownResult))
  | allocation (a : AllocationData)

/-- The uniform result envelope of the analytics executor. -/
structure AnalyticsResult where
  task : String
  success : Bool
  data : AData := .empty
  chart_data : Option ChartData := none
  error : Option String := none

/-- Source `resolve_assets`: handle the `__ALL__` sentinel and validate requested
assets against the portfolio, falling back to an external market query. -/
def resolve_assets (requested_assets : List String) (user_assets : List Asset)
    (allow_external : Bool) : List String × Bool :=
  let user_tickers := user_assets.map fun a => pyUpper a.symbol
  if "__ALL__" ∈ requested_assets ∨ requested_assets = [] then
    (user_tickers, false)
  else
    let normalized := requested_assets.map normalize_symbol
    let portfolio_assets := normalized.filter fun t => user_tickers.contains (pyUpper t)
    if portfolio_assets ≠ [] then (portfolio_assets, false)
    else if allow_external ∧ normalized ≠ [] then (normalized, true)
    else ([], false)

/-- Python `repr` of a list of strings, as interpolated into the
"Requested assets ... not found" message. -/
def pyReprList (xs : List String) : String :=
  "[" ++ String.intercalate ", " (xs.map fun s => "\x27" ++ s ++ "\x27") ++ "]"

/-- Source `_execute_trend`. -/
def _execute_trend (fetchMany : List String → TimeRange → List (String × Frame))
    (symbols : List String) (time_range : TimeRange) : AnalyticsResult :=
  let dfs := fetchMany symbols time_range
  if dfs = [] then
    { task := "trend", success := false, error := some "Could not fetch market data." }
  else
    { task := "trend", success := true
      data := .trends (dfs.map fun p => (p.1, calculate_trend p.2 p.1))
      chart_data := some (generate_chart_data dfs "line_chart") }

/-- Source `_execute_change`. -/
def _execute_change (fetchMany : List String → TimeRange → List (String × Frame))
    (symbols : List String) (time_range : TimeRange) : AnalyticsResult :=
  let dfs := fetchMany symbols time_range
  if dfs = [] then
    { task := "change", success := false, error := some "Could not fetch market data." }
  else
    { task := "change", success := true
      data := .changes (dfs.map fun p =>
        (p.1, calculate_percentage_change p.2, calculate_absolute_change p.2))
      chart_data := some (generate_chart_data dfs "bar_chart") }

/-- Source `_execute_rank`: rank the full portfolio. -/
def _execute_rank (fetchMany : List String → TimeRange → List (String × Frame))
    (user_assets : List Asset) (time_range : TimeRange) (direction : String)
    (rank_n : Int) : AnalyticsResult :=
  let symbols := user_assets.map (·.symbol)
  let dfs := fetchMany symbols time_range
  if dfs = [] then
    { task := "rank", success := false, error := some "Could not fetch market data." }
  else
    let rank_result := rank_by_performance dfs direction rank_n "change_percent"
    { task := "rank", success := true
      data := .rankings rank_result
      chart_data := some (.bar (rank_result.rankings.map (·.symbol))
        (rank_result.rankings.map fun r => (r.change_percent : ℝ))) }

/-- Source `_execute_pnl`. -/
def _execute_pnl (getPrices : List String → List (String × ℚ))
    (user_assets : List Asset) (symbols : List String) : AnalyticsResult :=
  let relevant_assets := user_assets.filter fun a =>
    (symbols.map pyUpper).contains (pyUpper a.symbol)
  if relevant_assets = [] then
    { task := "pnl", success := false, error := some "No matching assets found." }
  else
    let current_prices := getPrices (relevant_assets.map (·.symbol))
    if current_prices = [] then
      { task := "pnl", success := false, error := some "Could not fetch current prices." }
    else
      let pnl_results := calculate_unrealized_pnl relevant_assets current_prices
      let total_pnl := calculate_total_pnl pnl_results
      { task := "pnl", success := true
        data := .pnl pnl_results total_pnl
        chart_data := some (.table pnl_results) }

/-- Source `_execute_comparison`. -/
noncomputable def _execute_comparison
    (fetchMany : List String → TimeRange → List (String × Frame))
    (symbols : List String) (time_range : TimeRange) : AnalyticsResult :=
  if symbols.length < 2 then
    { task := "comparison", success := false
      error := some "Need at least 2 assets to compare." }
  else
    let dfs := fetchMany symbols time_range
    if dfs.length < 2 then
      { task := "comparison", success := false
        error := some "Could not fetch data for comparison." }
    else
      { task := "comparison", success := true
        data := .comparison (compare_assets dfs)
        chart_data := some (generate_chart_data dfs "line_chart") }

/-- Source `_execute_volatility`. -/
noncomputable def _execute_volatility
    (fetchMany : List String → TimeRange → List (String × Frame))
    (symbols : List String) (time_range : TimeRange) : AnalyticsResult :=
  let dfs := fetchMany symbols time_range
  if dfs = [] then
    { task := "volatility", success := false, error := some "Could not fetch market data." }
  else
    let volatilities := dfs.map fun p => (p.1, calculate_volatility p.2)
    { task := "volatility", success := true
      data := .volatilities volatilities
      chart_data := some (.bar (volatilities.map (·.1)) (volatilities.map (·.2))) }

/-- Source `_execute_drawdown`. -/
def _execute_drawdown (fetchMany : List String → TimeRange → List (String × Frame))
    (symbols : List String) (time_range : TimeRange) : AnalyticsResult :=
  let dfs := fetchMany symbols time_range
  if dfs = [] then
    { task := "drawdown", success := false, error := some "Could not fetch market data." }
  else
    { task := "drawdown", success := true
      data := .drawdowns (dfs.map fun p => (p.1, calculate_drawdown p.2)) }

/-- Source `_execute_allocation`. -/
def _execute_allocation (getPrices : List String → List (String × ℚ))
    (user_assets : List Asset) : AnalyticsResult :=
  if user_assets = [] then
    { task := "allocation", success := false, error := some "No assets found." }
  else
    let current_prices := getPrices (user_assets.map (·.symbol))
    if current_prices = [] then
      { task := "allocation", success := false
        error := some "Could not fetch current prices." }
    else
      let allocation := calculate_allocation user_assets current_prices
      { task := "allocation", success := true
        data := .allocation allocation
        chart_data := some (.pie (allocation.allocations.map (·.symbol))
          (allocation.allocations.map (·.percentage))) }

/-- Source `execute_analytics`: resolve assets, enforce the portfolio-required
policy, and dispatch on the task. -/
noncomputable def execute_analytics
    (fetchMany : List String → TimeRange → List (String × Frame))
    (getPrices : List String → List (String × ℚ))
    (getAssets : String → List Asset)
    (router_output : RouterAIOutput) (user_id : String) : AnalyticsResult :=
  let task := router_output.intent.task
  let entities := router_output.entities
  let operations := router_output.operations
  let user_assets := getAssets user_id
  let requested := entities.assets
  let requires_portfolio := (["pnl", "allocation", "rank"] : List String).contains task
  let resolved := resolve_assets requested user_assets (!requires_portfolio)
  let assets_to_analyze := resolved.1
  let is_external := resolved.2
  if requires_portfolio ∧ user_assets = [] then
    { task := task, success := false
      error := some "No assets found in your portfolio. Please add some assets first." }
  else if assets_to_analyze = [] ∧ is_external = false then
    { task := task, success := false
      error := some ("Requested assets " ++ pyReprList requested ++
        " not found. Try using ticker symbols like AAPL, BTC, GOLD.") }
  else
    let time_range := entities.time_range
    if task = "trend" then _execute_trend fetchMany assets_to_analyze time_range
    else if task = "change" then _execute_change fetchMany assets_to_analyze time_range
    else if task = "rank" then
      let direction := pyOrStr operations.direction "top"
      let rank_n := pyOrInt operations.rank_n 5
      _execute_rank fetchMany user_assets time_range direction rank_n
    else if task = "pnl" then _execute_pnl getPrices user_assets assets_to_analyze
    else if task = "comparison" then
      _execute_comparison fetchMany assets_to_analyze time_range
    else if task = "volatility" then
      _execute_volatility fetchMany assets_to_analyze time_range
    else if task = "drawdown" then
      _execute_drawdown fetchMany assets_to_analyze time_range
    else if task = "allocation" then _execute_allocation getPrices user_assets
    else
      { task := task, success := false
        error := some ("Unknown analytics task: " ++ task) }

/-! ## Pipeline dispatcher (`app/pipelines/dispatcher.py`)

`dispatch` selects a pipeline.  The three downstream pipelines (analytics
followed by `_format_analytics_result`, the RAG query, the forecasting
executor) perform external work, so they enter the model as function
arguments producing the final response shape. -/

/-- A source entry of the normalized dispatch response. -/
structure SourceEntry where
  name : String
  url : String
  «type» : String
deriving DecidableEq, Repr

/-- The `visualization` block of a dispatch response. -/
structure VisPayload where
  «type» : String
  chart_data : Option ChartData := none
  image_base64 : Option String := none

/-- The normalized response dict produced by `dispatch`; `sources = none`
models a response dict without a `sources` key (the clarification and
unknown-pipeline branches). -/
structure DispatchResponse where
  pipeline : String
  success : Bool
  task : Option String := none
  text : String
  data : AData := .empty
  visualization : Option VisPayload := none
  sources : Option (List SourceEntry) := none

/-- Source `dispatch`: short-circuit to clarification, else route on the pipeline. -/
def dispatch
    (analyticsFn : RouterAIOutput → String → DispatchResponse)
    (ragFn : RouterAIOutput → String → String → DispatchResponse)
    (forecastFn : RouterAIOutput → String → DispatchResponse)
    (router_output : RouterAIOutput) (user_id : String) (user_query : String) :
    DispatchResponse :=
  let pipeline := router_output.intent.pipeline
  if router_output.confidence.needs_clarification then
    { pipeline := "clarification", success := false
      text := pyOrStr router_output.confidence.clarification_prompt
        "Could you please clarify your question?"
      data := .empty, visualization := none, sources := none }
  else if pipeline = "analytics" then analyticsFn router_output user_id
  else if pipeline = "rag" then ragFn router_output user_id user_query
  else if pipeline = "forecasting" then forecastFn router_output user_id
  else
    { pipeline := pipeline, success := false, text := "Unknown pipeline type."
      data := .empty, visualization := none, sources := none }

/-! ## Spec-side definitions

These follow the wording of the specification (not the code); the theorems
relate them to the embedded source functions. -/

/-- The percent change from first to last close of a frame as the spec
words it, with a start price of 0 defined as 0 percent change. -/
def specPercentChange (df : Frame) : ℚ :=
  if df.headI.close ≠ 0 then
    (df.getLastI.close - df.headI.close) / df.headI.close * 100
  else 0

/-- Day-over-day percent price changes of a frame, indexed as the spec
describes them: the i-th return is `(close (i+1) - close i) / close i`. -/
def specDailyReturns (df : Frame) : List ℚ :=
  (List.range (df.length - 1)).map fun i =>
    ((closes df).getD (i + 1) 0 - (closes df).getD i 0) / (closes df).getD i 0

/-! ## Concrete inputs used by witnesses and counterexamples -/

/-- A two-row frame rising from 100 to 110 (+10 percent). -/
def frameUp : Frame := [⟨"2024-01-01", 100⟩, ⟨"2024-01-02", 110⟩]

/-- A single-row frame (degenerate). -/
def frameOne : Frame := [⟨"2024-01-01", 5⟩]

/-- A holding whose stored symbol is lower-case. -/
def lowerAsset : Asset := ⟨"aapl", 1, 10⟩

/-- A holding for AAPL. -/
def aaplAsset : Asset := ⟨"AAPL", 10, 100⟩

/-- Ranking fixture: A gains 10 percent, B loses 5 percent, C is flat. -/
def rankFrames : List (String × Frame) :=
  [("A", [⟨"d0", 100⟩, ⟨"d1", 110⟩]),
   ("B", [⟨"d0", 100⟩, ⟨"d1", 95⟩]),
   ("C", [⟨"d0", 100⟩, ⟨"d1", 100⟩])]

/-! ## C1: trend direction thresholds -/

/-- Case analysis of the direction label chain for an arbitrary percent
change value. -/
theorem trendDirCases (q : ℚ) :
    ((if q > 1 then "up" else if q < -1 then "down" else "flat") = "up" ↔ 1 < q)
    ∧ ((if q > 1 then "up" else if q < -1 then "down" else "flat") = "down" ↔ q < -1)
    ∧ ((if q > 1 then "up" else if q < -1 then "down" else "flat") = "flat" ↔
        -1 ≤ q ∧ q ≤ 1) := by
  refine ⟨?_, ?_, ?_⟩ <;> split_ifs with h1 h2 <;> simp <;>
    (try constructor) <;> intros <;> linarith

/-- C1.  For every price frame with at least 2 rows, `calculate_trend`
labels the direction "up" iff the percent change from first to last close
exceeds 1, "down" iff it is below -1, and "flat" otherwise (including equal
start and end prices); a start price of 0 is defined as 0 percent change,
so the label is "flat" and no division error can occur (the embedded
function is total).  The reported `change_percent` field is that same
percent change rounded to 2 decimals. -/
theorem calculate_trend_direction_spec (df : Frame) (symbol : String)
    (h : 2 ≤ df.length) :
    ((calculate_trend df symbol).trend_direction = "up" ↔ 1 < specPercentChange df)
    ∧ ((calculate_trend df symbol).trend_direction = "down" ↔ specPercentChange df < -1)
    ∧ ((calculate_trend df symbol).trend_direction = "flat" ↔
        -1 ≤ specPercentChange df ∧ specPercentChange df ≤ 1)
    ∧ (df.headI.close = 0 →
        specPercentChange df = 0 ∧ (calculate_trend df symbol).trend_direction = "flat")
    ∧ (df.headI.close = df.getLastI.close →
        (calculate_trend df symbol).trend_direction = "flat")
    ∧ (calculate_trend df symbol).change_percent = round2 (specPercentChange df) := by
  have hlen : ¬ df.length < 2 := by omega
  have hdir : (calculate_trend df symbol).trend_direction =
      (if specPercentChange df > 1 then "up"
       else if specPercentChange df < -1 then "down" else "flat") := by
    unfold calculate_trend specPercentChange
    rw [if_neg hlen]
  have hcp : (calculate_trend df symbol).change_percent =
      round2 (specPercentChange df) := by
    unfold calculate_trend specPercentChange
    rw [if_neg hlen]
  rw [hdir]
  refine ⟨(trendDirCases _).1, (trendDirCases _).2.1, (trendDirCases _).2.2, ?_, ?_, hcp⟩
  · intro h0
    have hp0 : specPercentChange df = 0 := by
      unfold specPercentChange
      rw [if_neg (by simp [h0])]
    rw [hp0]
    exact ⟨rfl, by norm_num⟩
  · intro he
    have hp0 : specPercentChange df = 0 := by
      unfold specPercentChange
      split_ifs with hs
      · rw [he]
        ring
      · rfl
    rw [hp0]
    norm_num

/-- Witness for C1 at a concrete rising frame. -/
theorem calculate_trend_direction_spec_witness :
    2 ≤ frameUp.length ∧
    ((calculate_trend frameUp "AAPL").trend_direction = "up" ↔
      1 < specPercentChange frameUp) :=
  ⟨by decide, (calculate_trend_direction_spec frameUp "AAPL" (by decide)).1⟩

/-! ## C4: the `__ALL__` sentinel and the empty request -/

/-- Counterexample to C4 as stated: with a holding stored as "aapl" the
resolver returns "AAPL", not the stored ticker symbol of the holding. -/
theorem resolve_assets_all_counterexample :
    (resolve_assets ["__ALL__"] [lowerAsset] true).1 ≠ [lowerAsset].map Asset.symbol
    ∧ resolve_assets ["__ALL__"] [lowerAsset] true = (["AAPL"], false) := by
  constructor <;> decide

/-- C4 (amended).  For every request containing the sentinel `__ALL__` (or
empty) and every holdings list and `allow_external` flag, `resolve_assets`
returns the ticker symbols of the holdings uppercased, one per holding, with
`is_external_query = false`; and the empty request behaves identically to
the `__ALL__` request. -/
theorem resolve_assets_all_spec :
    (∀ (req : List String) (holdings : List Asset) (ae : Bool),
      "__ALL__" ∈ req ∨ req = [] →
      resolve_assets req holdings ae = (holdings.map fun a => pyUpper a.symbol, false))
    ∧ (∀ (holdings : List Asset) (ae : Bool),
      resolve_assets [] holdings ae = resolve_assets ["__ALL__"] holdings ae) := by
  constructor
  · intro req holdings ae h
    unfold resolve_assets
    rw [if_pos h]
  · intro holdings ae
    unfold resolve_assets
    rw [if_pos (Or.inr rfl), if_pos (Or.inl (List.mem_singleton.mpr rfl))]

/-- Witness for C4 (amended) on a concrete holding. -/
theorem resolve_assets_all_spec_witness :
    ("__ALL__" ∈ (["__ALL__"] : List String) ∨ (["__ALL__"] : List String) = [])
    ∧ resolve_assets ["__ALL__"] [aaplAsset] false =
        ([aaplAsset].map fun a => pyUpper a.symbol, false)
    ∧ resolve_assets [] [aaplAsset] true = resolve_assets ["__ALL__"] [aaplAsset] true :=
  ⟨Or.inl (by decide),
   resolve_assets_all_spec.1 ["__ALL__"] [aaplAsset] false (Or.inl (by decide)),
   resolve_assets_all_spec.2 [aaplAsset] true⟩

/-! ## C7: clarification short-circuit in the dispatcher -/

/-- C7.  Whenever `needs_clarification` is set, `dispatch` returns the
clarification response carrying the prompt (or the default prompt), and
the response does not depend on the analytics executor, the RAG
collaborator or the forecasting collaborator — none of them is invoked
(in the pure embedding: the result is identical for arbitrary collaborator
functions, so no data fetch can have contributed to it). -/
theorem dispatch_clarification_spec
    (a₁ a₂ : RouterAIOutput → String → DispatchResponse)
    (r₁ r₂ : RouterAIOutput → String → String → DispatchResponse)
    (f₁ f₂ : RouterAIOutput → String → DispatchResponse)
    (o : RouterAIOutput) (uid q : String)
    (h : o.confidence.needs_clarification = true) :
    dispatch a₁ r₁ f₁ o uid q =
      { pipeline := "clarification", success := false
        text := pyOrStr o.confidence.clarification_prompt
          "Could you please clarify your question?"
        data := .empty, visualization := none, sources := none }
    ∧ dispatch a₁ r₁ f₁ o uid q = dispatch a₂ r₂ f₂ o uid q := by
  unfold dispatch
  rw [if_pos h, if_pos h]
  exact ⟨rfl, rfl⟩

/-- A throwaway collaborator response used to instantiate C7. -/
def dummyResp : DispatchResponse :=
  { pipeline := "analytics", success := true, text := "" }

/-- A second, different throwaway collaborator response. -/
def dummyResp2 : DispatchResponse :=
  { pipeline := "rag", success := false, text := "other" }

/-- A classifier output requesting clarification. -/
def clarifyOut : RouterAIOutput :=
  { confidence := { needs_clarification := true
                    clarification_prompt := some "Which stock do you mean?" } }

/-- Witness for C7 with two distinct collaborator triples. -/
theorem dispatch_clarification_spec_witness :
    clarifyOut.confidence.needs_clarification = true ∧
    (dispatch (fun _ _ => dummyResp) (fun _ _ _ => dummyResp) (fun _ _ => dummyResp)
        clarifyOut "u1" "query" =
      { pipeline := "clarification", success := false
        text := pyOrStr clarifyOut.confidence.clarification_prompt
          "Could you please clarify your question?"
        data := .empty, visualization := none, sources := none }
    ∧ dispatch (fun _ _ => dummyResp) (fun _ _ _ => dummyResp) (fun _ _ => dummyResp)
          clarifyOut "u1" "query" =
        dispatch (fun _ _ => dummyResp2) (fun _ _ _ => dummyResp2) (fun _ _ => dummyResp2)
          clarifyOut "u1" "query") :=
  ⟨rfl, dispatch_clarification_spec _ _ _ _ _ _ clarifyOut "u1" "query" rfl⟩

/-! ## C2: asset validation against known tickers -/

/-- Classifier output requesting AAPL and ZZZ. -/
def mixedMatchOut : RouterAIOutput := { entities := { assets := ["AAPL", "ZZZ"] } }

/-- Classifier output requesting only the unknown ZZZ. -/
def noMatchOut : RouterAIOutput := { entities := { assets := ["ZZZ"] } }

/-- C2.  For every classifier output with `needs_clarification = false` and a
non-empty asset list not containing `__ALL__`, `validate_router_output`
matches each asset case-insensitively against the known tickers: if the
matched sublist is non-empty the assets are replaced by that sublist
uppercased (unmatched entries silently dropped) and nothing else changes
(in particular `needs_clarification` stays false); if no asset matches, the
confidence block is replaced by `needs_clarification = true`,
`missing_fields = ["assets"]` and a prompt naming the unmatched assets and
the known tickers.  The two concrete examples of the spec are included. -/
theorem validate_router_output_spec (o : RouterAIOutput) (ts : List String)
    (h1 : o.confidence.needs_clarification = false)
    (h2 : o.entities.assets ≠ [])
    (h3 : "__ALL__" ∉ o.entities.assets) :
    ((o.entities.assets.filter fun a => (ts.map pyUpper).contains (pyUpper a)) ≠ [] →
      validate_router_output o ts =
        { o with entities := { o.entities with assets :=
            (o.entities.assets.filter fun a =>
              (ts.map pyUpper).contains (pyUpper a)).map pyUpper } })
    ∧ ((o.entities.assets.filter fun a => (ts.map pyUpper).contains (pyUpper a)) = [] →
      validate_router_output o ts =
        { o with confidence :=
            { needs_clarification := true
              missing_fields := ["assets"]
              clarification_prompt := some ("I couldn\x27t find " ++
                String.intercalate ", " (o.entities.assets.filter fun a =>
                  ! (ts.map pyUpper).contains (pyUpper a)) ++
                " in your portfolio. Your stocks are: " ++
                String.intercalate ", " ts) } })
    ∧ (validate_router_output mixedMatchOut ["AAPL"]).entities.assets = ["AAPL"]
    ∧ (validate_router_output mixedMatchOut ["AAPL"]).confidence.needs_clarification
        = false
    ∧ (validate_router_output noMatchOut ["AAPL"]).confidence.needs_clarification = true
    ∧ (validate_router_output noMatchOut ["AAPL"]).confidence.missing_fields
        = ["assets"] := by
  have hcl : ¬ (o.confidence.needs_clarification = true) := by simp [h1]
  refine ⟨?_, ?_, by decide, by decide, by decide, by decide⟩
  · intro hv
    have hvalid : (o.entities.assets.filter fun a =>
        (ts.map pyUpper).contains (pyUpper a)).map pyUpper ≠ [] := by
      simpa using hv
    unfold validate_router_output
    dsimp only
    rw [if_neg hcl, if_pos ⟨h2, h3⟩, if_neg (fun hc => hvalid hc.2), if_pos hvalid]
  · intro hv
    obtain ⟨a, ha⟩ := List.exists_mem_of_ne_nil _ h2
    have hfa : ((ts.map pyUpper).contains (pyUpper a)) = false := by
      cases hb : ((ts.map pyUpper).contains (pyUpper a)) with
      | false => rfl
      | true =>
          have hmem : a ∈ o.entities.assets.filter fun a =>
              (ts.map pyUpper).contains (pyUpper a) :=
            List.mem_filter.mpr ⟨ha, hb⟩
          rw [hv] at hmem
          exact absurd hmem (List.not_mem_nil a)
    have hinv : (o.entities.assets.filter fun a =>
        ! (ts.map pyUpper).contains (pyUpper a)) ≠ [] := by
      apply List.ne_nil_of_mem (a := a)
      exact List.mem_filter.mpr ⟨ha, by simp only [hfa, Bool.not_false]⟩
    have hvnil : (o.entities.assets.filter fun a =>
        (ts.map pyUpper).contains (pyUpper a)).map pyUpper = [] := by
      rw [hv, List.map_nil]
    unfold validate_router_output
    dsimp only
    rw [if_neg hcl, if_pos ⟨h2, h3⟩, if_pos ⟨hinv, hvnil⟩]

/-- Witness for C2, instantiating both general branches: the AAPL/ZZZ
request keeps AAPL, the ZZZ-only request triggers the clarification. -/
theorem validate_router_output_spec_witness :
    mixedMatchOut.confidence.needs_clarification = false
    ∧ mixedMatchOut.entities.assets ≠ []
    ∧ "__ALL__" ∉ mixedMatchOut.entities.assets
    ∧ validate_router_output mixedMatchOut ["AAPL"] =
        { mixedMatchOut with entities := { mixedMatchOut.entities with assets :=
            (mixedMatchOut.entities.assets.filter fun a =>
              ((["AAPL"] : List String).map pyUpper).contains (pyUpper a)).map pyUpper } }
    ∧ validate_router_output noMatchOut ["AAPL"] =
        { noMatchOut with confidence :=
            { needs_clarification := true
              missing_fields := ["assets"]
              clarification_prompt := some ("I couldn\x27t find " ++
                String.intercalate ", " (noMatchOut.entities.assets.filter fun a =>
                  ! ((["AAPL"] : List String).map pyUpper).contains (pyUpper a)) ++
                " in your portfolio. Your stocks are: " ++
                String.intercalate ", " ["AAPL"]) } } :=
  ⟨rfl, by decide, by decide,
   (validate_router_output_spec mixedMatchOut ["AAPL"] rfl (by decide) (by decide)).1
     (by decide),
   (validate_router_output_spec noMatchOut ["AAPL"] rfl (by decide) (by decide)).2.1
     (by decide)⟩

/-! ## C9: reference resolution -/

/-- A context after a ranking, with two active assets. -/
def rankCtx : ConversationContext :=
  { active_assets := ["AAPL", "MSFT"], last_results := { task := some "rank" } }

/-- Counterexample to C9 as stated: the text "it was the worst" contains
both the pronoun keyword "it" and the superlative keyword "worst" while
`last_results.task = "rank"`, and the code returns all active assets, not
the first element as a singleton as the claim requires. -/
theorem resolve_reference_counterexample :
    resolve_reference "it was the worst" rankCtx = some ["AAPL", "MSFT"]
    ∧ resolve_reference "it was the worst" rankCtx ≠ some ["AAPL"]
    ∧ worstHit (pyLower "it was the worst") = true
    ∧ rankCtx.last_results.task = some "rank" := by
  refine ⟨?_, ?_, ?_, rfl⟩ <;> decide

/-- C9 (amended).  For every non-empty reference text: if the lower-cased
text contains one of that/it/this/the same and `active_assets` is non-empty,
the resolver returns `active_assets`.  Only otherwise, if the text contains
worst/bottom or best/top and `last_results.task = "rank"`, it returns the
first element of `active_assets` as a singleton (no resolution when
`active_assets` is empty).  Otherwise it falls back to `active_assets` when
non-empty and returns no resolution when `active_assets` is empty. -/
theorem resolve_reference_spec (ref : String) (ctx : ConversationContext)
    (h : ref ≠ "") :
    (refKeywordHit (pyLower ref) = true ∧ ctx.active_assets ≠ [] →
      resolve_reference ref ctx = some ctx.active_assets)
    ∧ (¬(refKeywordHit (pyLower ref) = true ∧ ctx.active_assets ≠ []) →
        (worstHit (pyLower ref) = true ∨ bestHit (pyLower ref) = true) →
        ctx.last_results.task = some "rank" →
        resolve_reference ref ctx =
          if ctx.active_assets ≠ [] then some (ctx.active_assets.take 1) else none)
    ∧ (¬(refKeywordHit (pyLower ref) = true ∧ ctx.active_assets ≠ []) →
        ¬((worstHit (pyLower ref) = true ∨ bestHit (pyLower ref) = true) ∧
          ctx.last_results.task = some "rank") →
        resolve_reference ref ctx =
          if ctx.active_assets ≠ [] then some ctx.active_assets else none) := by
  have hand : ∀ b : Bool, (b && !ctx.active_assets.isEmpty) = true ↔
      (b = true ∧ ctx.active_assets ≠ []) := by
    intro b
    simp [List.isEmpty_iff]
  have htask : ∀ b : Bool, (b && (ctx.last_results.task == some "rank")) = true ↔
      (b = true ∧ ctx.last_results.task = some "rank") := by
    intro b
    simp
  refine ⟨?_, ?_, ?_⟩
  · intro hc
    unfold resolve_reference
    rw [if_neg h, if_pos ((hand _).mpr hc)]
  · intro hn hwb ht
    unfold resolve_reference
    rw [if_neg h, if_neg (fun hc => hn ((hand _).mp hc))]
    by_cases hw : worstHit (pyLower ref) = true
    · rw [if_pos ((htask _).mpr ⟨hw, ht⟩)]
      by_cases hae : ctx.active_assets = [] <;> simp [hae, List.isEmpty_iff]
    · have hb : bestHit (pyLower ref) = true := by
        rcases hwb with h' | h'
        · exact absurd h' hw
        · exact h'
      rw [if_neg (fun hc => hw ((htask _).mp hc).1),
        if_pos ((htask _).mpr ⟨hb, ht⟩)]
      by_cases hae : ctx.active_assets = [] <;> simp [hae, List.isEmpty_iff]
  · intro hn hn2
    unfold resolve_reference
    rw [if_neg h, if_neg (fun hc => hn ((hand _).mp hc)),
      if_neg (fun hc => hn2 ⟨Or.inl ((htask _).mp hc).1, ((htask _).mp hc).2⟩),
      if_neg (fun hc => hn2 ⟨Or.inr ((htask _).mp hc).1, ((htask _).mp hc).2⟩)]
    by_cases hae : ctx.active_assets = [] <;> simp [hae, List.isEmpty_iff]

/-- A context holding one active asset. -/
def thatCtx : ConversationContext := { active_assets := ["AAPL"] }

/-- The empty context of a fresh conversation. -/
def emptyCtx : ConversationContext := {}

/-- Witness for C9 (amended) at the two concrete examples of the spec. -/
theorem resolve_reference_spec_witness :
    ("what about that one" : String) ≠ ""
    ∧ resolve_reference "what about that one" thatCtx = some thatCtx.active_assets
    ∧ resolve_reference "tell me about weather" emptyCtx =
        (if emptyCtx.active_assets ≠ [] then some emptyCtx.active_assets else none) :=
  ⟨by decide,
   (resolve_reference_spec "what about that one" thatCtx (by decide)).1
     ⟨by decide, by decide⟩,
   (resolve_reference_spec "tell me about weather" emptyCtx (by decide)).2.2
     (by decide) (by decide)⟩

/-! ## C3: ranking by performance -/

/-- The ranks attached by `addRanks` are consecutive starting at `i0`. -/
theorem addRanks_map_rank (i0 : Nat) (l : List PerfEntry) :
    (addRanks i0 l).map (·.rank) = List.range' i0 l.length := by
  induction l generalizing i0 with
  | nil => rfl
  | cons e es ih =>
      simp only [addRanks, List.map_cons, ih, List.length_cons]
      rfl

/-- Source `addRanks` keeps the list length. -/
theorem addRanks_length (i0 : Nat) (l : List PerfEntry) :
    (addRanks i0 l).length = l.length := by
  induction l generalizing i0 with
  | nil => rfl
  | cons e es ih => simp [addRanks, ih]

/-- Every ranked entry comes from the underlying performance list. -/
theorem mem_addRanks {x : RankedEntry} {i0 : Nat} {l : List PerfEntry}
    (hx : x ∈ addRanks i0 l) : x.toPerf ∈ l := by
  induction l generalizing i0 with
  | nil => cases hx
  | cons e es ih =>
      rcases List.mem_cons.mp hx with h | h
      · have he : x.toPerf = e := by
          rw [h]
          cases e
          rfl
        rw [he]
        exact List.mem_cons_self _ _
      · exact List.mem_cons_of_mem _ (ih h)

/-- Source `addRanks` preserves any pairwise relation on the percent changes. -/
theorem addRanks_pairwise {R : ℚ → ℚ → Prop} {l : List PerfEntry} (i0 : Nat)
    (h : l.Pairwise fun a b => R a.change_percent b.change_percent) :
    (addRanks i0 l).Pairwise fun a b => R a.change_percent b.change_percent := by
  induction l generalizing i0 with
  | nil => exact List.Pairwise.nil
  | cons e es ih =>
      cases h with
      | cons he hes =>
          refine List.Pairwise.cons ?_ (ih _ hes)
          intro b hb
          exact he b.toPerf (mem_addRanks hb)

/-- A frame with fewer than 2 rows contributes nothing to the performance
list. -/
theorem perfEntries_cons_short (sym : String) (df : Frame)
    (rest : List (String × Frame)) (h : df.length < 2) :
    perfEntries ((sym, df) :: rest) = perfEntries rest := by
  simp [perfEntries, if_pos h]

/-- C3.  `rank_by_performance` computes the percent change per symbol
(frames with fewer than 2 rows are skipped), stable-sorts descending for
direction "top" and ascending for "bottom", truncates to the first `n`
entries, and assigns 1-based consecutive ranks; on the {A: +10, B: -5,
C: 0 percent} fixture, top-2 is [A, C] with ranks 1, 2 and bottom-2 is
[B, C] with ranks 1, 2. -/
theorem rank_by_performance_spec (dfs : List (String × Frame)) (dir m : String)
    (n : Int) (sym : String) (df : Frame) (rest : List (String × Frame))
    (hn : 0 ≤ n) (hdf : df.length < 2) :
    (rank_by_performance dfs dir n m).direction = dir
    ∧ (rank_by_performance dfs dir n m).metric = m
    ∧ (rank_by_performance dfs dir n m).rankings.length =
        min n.toNat (perfEntries dfs).length
    ∧ (rank_by_performance dfs dir n m).rankings.map (·.rank) =
        List.range' 1 (rank_by_performance dfs dir n m).rankings.length
    ∧ (∀ e ∈ (rank_by_performance dfs dir n m).rankings, e.toPerf ∈ perfEntries dfs)
    ∧ (dir = "top" → (rank_by_performance dfs dir n m).rankings.Pairwise
        fun a b => b.change_percent ≤ a.change_percent)
    ∧ (dir = "bottom" → (rank_by_performance dfs dir n m).rankings.Pairwise
        fun a b => a.change_percent ≤ b.change_percent)
    ∧ perfEntries ((sym, df) :: rest) = perfEntries rest
    ∧ rank_by_performance rankFrames "top" 2 "change_percent" =
        { rankings := [⟨"A", 10, 100, 110, 1⟩, ⟨"C", 0, 100, 100, 2⟩]
          direction := "top", metric := "change_percent" }
    ∧ rank_by_performance rankFrames "bottom" 2 "change_percent" =
        { rankings := [⟨"B", -5, 100, 95, 1⟩, ⟨"C", 0, 100, 100, 2⟩]
          direction := "bottom", metric := "change_percent" } := by
  have hslice : ∀ l : List PerfEntry, (pySliceTo n l).length = min n.toNat l.length := by
    intro l
    unfold pySliceTo
    rw [if_pos hn, List.length_take]
  refine ⟨rfl, rfl, ?_, ?_, ?_, ?_, ?_, perfEntries_cons_short sym df rest hdf,
    by with_unfolding_all decide, by with_unfolding_all decide⟩
  · unfold rank_by_performance
    dsimp only
    split_ifs <;> rw [addRanks_length, hslice, List.length_insertionSort]
  · unfold rank_by_performance
    dsimp only
    split_ifs <;> rw [addRanks_map_rank, addRanks_length]
  · intro e he
    unfold rank_by_performance at he
    dsimp only at he
    split_ifs at he <;>
      exact (List.mem_insertionSort _).mp
        ((List.take_sublist _ _).subset (mem_addRanks he))
  · intro hd
    subst hd
    unfold rank_by_performance
    dsimp only
    rw [if_pos rfl]
    exact addRanks_pairwise (R := fun x y => y ≤ x) 1
      (List.Pairwise.sublist (List.take_sublist _ _) (List.sorted_insertionSort perfGe _))
  · intro hd
    subst hd
    unfold rank_by_performance
    dsimp only
    rw [if_neg (by decide : ¬("bottom" : String) = "top")]
    exact addRanks_pairwise (R := fun x y => x ≤ y) 1
      (List.Pairwise.sublist (List.take_sublist _ _) (List.sorted_insertionSort perfLe _))

/-- Witness for C3, instantiating the general part on the ranking fixture
and the skip clause on a one-row frame. -/
theorem rank_by_performance_spec_witness :
    (0 : Int) ≤ 2 ∧ frameOne.length < 2
    ∧ (rank_by_performance rankFrames "top" 2 "change_percent").rankings.map (·.rank) =
        List.range' 1
          (rank_by_performance rankFrames "top" 2 "change_percent").rankings.length
    ∧ perfEntries (("X", frameOne) :: rankFrames) = perfEntries rankFrames :=
  ⟨by decide, by decide,
   (rank_by_performance_spec rankFrames "top" "change_percent" 2 "X" frameOne rankFrames
     (by decide) (by decide)).2.2.2.1,
   (rank_by_performance_spec rankFrames "top" "change_percent" 2 "X" frameOne rankFrames
     (by decide) (by decide)).2.2.2.2.2.2.2.1⟩

/-! ## C6: degenerate series -/

/-- C6.  For every frame of length 0 or 1, every calculator returns its
documented zeroed or empty result: trend, percentage change, absolute
change, volatility and drawdown return their zeroed records, the rank
per-series branch skips the frame, and the comparison per-series branch
skips an empty frame and emits the all-zero row for a one-row frame.  All
embedded functions are total, so no exception can be raised. -/
theorem degenerate_calculators_spec (df : Frame) (sym d m : String) (n : Int)
    (rest : List (String × Frame)) (h : df.length < 2) :
    calculate_trend df sym =
      { symbol := sym, start_price := 0, end_price := 0, change_absolute := 0
        change_percent := 0, trend_direction := "flat", data_points := [] }
    ∧ calculate_percentage_change df = { change_percent := 0, start := 0, «end» := 0 }
    ∧ calculate_absolute_change df = { change_absolute := 0, start := 0, «end» := 0 }
    ∧ calculate_volatility df = 0
    ∧ calculate_drawdown df = { max_drawdown_percent := 0, peak := 0, trough := 0 }
    ∧ rank_by_performance ((sym, df) :: rest) d n m = rank_by_performance rest d n m
    ∧ (df.length = 0 → compare_assets ((sym, df) :: rest) = compare_assets rest)
    ∧ (df.length = 1 →
        (compare_assets ((sym, df) :: rest)).assets =
          ({ symbol := sym, start_price := 0, end_price := 0, change_percent := 0
             trend_direction := "flat", volatility := 0, max_drawdown := 0 } :
            CompareEntry) :: (compare_assets rest).assets
        ∧ (compare_assets ((sym, df) :: rest)).count = (compare_assets rest).count + 1) := by
  have hct : calculate_trend df sym =
      { symbol := sym, start_price := 0, end_price := 0, change_absolute := 0
        change_percent := 0, trend_direction := "flat", data_points := [] } := by
    unfold calculate_trend
    rw [if_pos h]
  have hcv : calculate_volatility df = 0 := by
    unfold calculate_volatility
    rw [if_pos h]
  have hcd : calculate_drawdown df =
      { max_drawdown_percent := 0, peak := 0, trough := 0 } := by
    unfold calculate_drawdown
    rw [if_pos h]
  refine ⟨hct, ?_, ?_, hcv, hcd, ?_, ?_, ?_⟩
  · unfold calculate_percentage_change
    rw [if_pos h]
  · unfold calculate_absolute_change
    rw [if_pos h]
  · unfold rank_by_performance
    rw [perfEntries_cons_short sym df rest h]
  · intro h0
    unfold compare_assets
    dsimp only
    rw [List.filterMap_cons_none (by simp [h0])]
  · intro h1
    have h0 : ¬ df.length = 0 := by omega
    have hce : compareEntry sym df =
        { symbol := sym, start_price := 0, end_price := 0, change_percent := 0
          trend_direction := "flat", volatility := 0, max_drawdown := 0 } := by
      unfold compareEntry
      rw [hct, hcv, hcd]
    constructor
    · unfold compare_assets
      dsimp only
      simp only [List.filterMap_cons, if_neg h0]
      rw [hce]
    · unfold compare_assets
      dsimp only
      simp only [List.filterMap_cons, if_neg h0, List.length_cons]

/-- Witness for C6 at a one-row frame and, for the empty-frame comparison
clause, at the empty frame. -/
theorem degenerate_calculators_spec_witness :
    frameOne.length < 2
    ∧ calculate_percentage_change frameOne =
        { change_percent := 0, start := 0, «end» := 0 }
    ∧ calculate_volatility frameOne = 0
    ∧ rank_by_performance (("X", frameOne) :: rankFrames) "top" 5 "change_percent" =
        rank_by_performance rankFrames "top" 5 "change_percent"
    ∧ compare_assets (("E", ([] : Frame)) :: rankFrames) = compare_assets rankFrames :=
  ⟨by decide,
   (degenerate_calculators_spec frameOne "X" "top" "change_percent" 5 rankFrames
     (by decide)).2.1,
   (degenerate_calculators_spec frameOne "X" "top" "change_percent" 5 rankFrames
     (by decide)).2.2.2.1,
   (degenerate_calculators_spec frameOne "X" "top" "change_percent" 5 rankFrames
     (by decide)).2.2.2.2.2.1,
   (degenerate_calculators_spec ([] : Frame) "E" "top" "change_percent" 5 rankFrames
     (by decide)).2.2.2.2.2.2.1 rfl⟩

/-! ## C8: rank executes over the full portfolio -/

/-- Constant market-data collaborator: every fetch yields the AAPL frame. -/
def cFetch : List String → TimeRange → List (String × Frame) :=
  fun _ _ => [("AAPL", frameUp)]

/-- Constant price collaborator. -/
def cPrices : List String → List (String × ℚ) := fun _ => [("AAPL", 150)]

/-- Portfolio collaborator: every user holds exactly AAPL. -/
def cAssets : String → List Asset := fun _ => [aaplAsset]

/-- A rank request whose asset filter names only the unknown ZZZ. -/
def zzzRankOut : RouterAIOutput :=
  { intent := { task := "rank" }, entities := { assets := ["ZZZ"] } }

/-- A rank request for the whole portfolio. -/
def allRankOut : RouterAIOutput :=
  { intent := { task := "rank" }, entities := { assets := ["__ALL__"] } }

/-- Counterexample to C8 as stated: with a non-empty portfolio, a rank
request whose asset list resolves to no holding fails with "Requested
assets ... not found" before any ranking, while the same request with
`__ALL__` succeeds — so the requested asset list does change whether the
rank task runs. -/
theorem execute_analytics_rank_counterexample :
    (execute_analytics cFetch cPrices cAssets zzzRankOut "u").success = false
    ∧ (execute_analytics cFetch cPrices cAssets zzzRankOut "u").error =
        some ("Requested assets " ++ pyReprList ["ZZZ"] ++
          " not found. Try using ticker symbols like AAPL, BTC, GOLD.")
    ∧ (execute_analytics cFetch cPrices cAssets allRankOut "u").success = true
    ∧ zzzRankOut.intent.task = "rank" ∧ cAssets "u" ≠ [] := by
  refine ⟨?_, ?_, ?_, rfl, by decide⟩ <;> with_unfolding_all decide

/-- C8 (amended).  For every rank-task request by a user with a non-empty
portfolio whose asset list resolves non-empty against the portfolio
(it contains `__ALL__`, is empty, or names at least one held ticker), the
executor ranks the full set of holdings regardless of the asset filter,
with direction defaulting to "top" and N defaulting to 5 when unspecified;
a rank request resolving to no holding instead returns a failure envelope
without ranking (see the counterexample). -/
theorem execute_analytics_rank_spec
    (fetchMany : List String → TimeRange → List (String × Frame))
    (getPrices : List String → List (String × ℚ))
    (getAssets : String → List Asset)
    (o : RouterAIOutput) (uid : String)
    (htask : o.intent.task = "rank")
    (hport : getAssets uid ≠ [])
    (hres : (resolve_assets o.entities.assets (getAssets uid) false).1 ≠ []) :
    execute_analytics fetchMany getPrices getAssets o uid =
      _execute_rank fetchMany (getAssets uid) o.entities.time_range
        (pyOrStr o.operations.direction "top") (pyOrInt o.operations.rank_n 5)
    ∧ (o.operations.direction = none → pyOrStr o.operations.direction "top" = "top")
    ∧ (o.operations.rank_n = none → pyOrInt o.operations.rank_n 5 = 5) := by
  have hc : ((["pnl", "allocation", "rank"] : List String).contains "rank") = true := by
    decide
  refine ⟨?_, fun he => by rw [he]; rfl, fun he => by rw [he]; rfl⟩
  unfold execute_analytics
  dsimp only
  simp only [htask, hc, Bool.not_true]
  rw [if_neg (fun hcc => hport hcc.2), if_neg (fun hcc => hres hcc.1),
    if_neg (by decide : ¬("rank" : String) = "trend"),
    if_neg (by decide : ¬("rank" : String) = "change"), if_pos trivial]

/-- Witness for C8 (amended): the `__ALL__` rank request over the AAPL
portfolio is executed as a full-portfolio ranking with the defaults. -/
theorem execute_analytics_rank_spec_witness :
    allRankOut.intent.task = "rank" ∧ cAssets "u" ≠ []
    ∧ (resolve_assets allRankOut.entities.assets (cAssets "u") false).1 ≠ []
    ∧ execute_analytics cFetch cPrices cAssets allRankOut "u" =
        _execute_rank cFetch (cAssets "u") allRankOut.entities.time_range "top" 5 :=
  ⟨rfl, by decide, by decide,
   (execute_analytics_rank_spec cFetch cPrices cAssets allRankOut "u" rfl
     (by decide) (by decide)).1⟩

/-! ## C5: annualized volatility -/

/-- The zip-based pandas `pct_change` agrees with the index-based
day-over-day returns. -/
theorem pctChange_eq_specReturns (xs : List ℚ) :
    pctChangeList xs =
      (List.range (xs.length - 1)).map fun i =>
        (xs.getD (i + 1) 0 - xs.getD i 0) / xs.getD i 0 := by
  induction xs with
  | nil => rfl
  | cons x xs ih =>
      cases xs with
      | nil => rfl
      | cons y t =>
          show (y - x) / x :: pctChangeList (y :: t) = _
          rw [ih]
          have hlen : (x :: y :: t).length - 1 = ((y :: t).length - 1) + 1 := by
            simp
          rw [hlen, List.range_succ_eq_map, List.map_cons, List.map_map]
          rfl

/-- C5.  `calculate_volatility` is the sample standard deviation (`ddof = 1`
via `sampleVarQ`) of the day-over-day percent price changes, annualized by
multiplying by the square root of 252 and converted to a percentage (and
rounded to 2 decimals like every final output); a series with fewer than 2
usable points — fewer than 2 rows, hence no usable return — yields exactly
0. -/
theorem calculate_volatility_spec (df : Frame) :
    (df.length < 2 → calculate_volatility df = 0)
    ∧ (2 ≤ df.length →
        specDailyReturns df ≠ []
        ∧ (specDailyReturns df).length = df.length - 1
        ∧ calculate_volatility df =
            round2R (Real.sqrt ((sampleVarQ (specDailyReturns df) : ℚ) : ℝ) *
              Real.sqrt 252 * 100)) := by
  constructor
  · intro h
    unfold calculate_volatility
    rw [if_pos h]
  · intro h
    have hlen2 : ¬ df.length < 2 := by omega
    have hclen : (closes df).length = df.length := List.length_map _ _
    have hre : pctChangeList (closes df) = specDailyReturns df := by
      unfold specDailyReturns
      rw [pctChange_eq_specReturns (closes df), hclen]
    have hrlen : (specDailyReturns df).length = df.length - 1 := by
      unfold specDailyReturns
      rw [List.length_map, List.length_range]
    have hne : specDailyReturns df ≠ [] := by
      apply List.length_pos.mp
      rw [hrlen]
      omega
    refine ⟨hne, hrlen, ?_⟩
    unfold calculate_volatility
    rw [if_neg hlen2]
    dsimp only
    rw [hre, if_neg (by rw [hrlen]; omega)]

/-- A three-row frame with a usable pair of daily returns. -/
def frameThree : Frame := [⟨"d0", 100⟩, ⟨"d1", 110⟩, ⟨"d2", 105⟩]

/-- Witness for C5: a one-row frame yields exactly 0; on the three-row
frame the returns list is non-empty. -/
theorem calculate_volatility_spec_witness :
    frameOne.length < 2 ∧ calculate_volatility frameOne = 0
    ∧ 2 ≤ frameThree.length ∧ specDailyReturns frameThree ≠ [] :=
  ⟨by decide, (calculate_volatility_spec frameOne).1 (by decide), by decide,
   ((calculate_volatility_spec frameThree).2 (by decide)).1⟩

/-! ## C10: validation touches only assets and confidence -/

/-- C10.  For every classifier output and known-ticker list,
`validate_router_output` preserves the intent, operations, visualization,
and the metrics, time range and reference entities; only `entities.assets`
and the confidence block can change. -/
theorem validate_router_output_frame (o : RouterAIOutput) (ts : List String) :
    (validate_router_output o ts).intent = o.intent
    ∧ (validate_router_output o ts).operations = o.operations
    ∧ (validate_router_output o ts).visualization = o.visualization
    ∧ (validate_router_output o ts).entities.metrics = o.entities.metrics
    ∧ (validate_router_output o ts).entities.time_range = o.entities.time_range
    ∧ (validate_router_output o ts).entities.reference = o.entities.reference := by
  unfold validate_router_output
  dsimp only
  split_ifs <;> simp

end WorkOPilot
